import Mathlib

/-!
Shallow embedding of `src/worker.py` (Pirkkala weather notification worker).

The worker is a single-threaded poll loop: every `CHECK_INTERVAL_SECONDS` it
wakes, and at two fixed trigger hours (9 and 20) it fetches a weather record,
asks Gemini for a clothing recommendation, formats an SMS and sends it via
Twilio, recording the dispatch in an in-process set of slot-keys
`"{date}-morning"` / `"{date}-evening"`.  External collaborators (HTTP fetch,
Gemini, Twilio) are modelled as oracle inputs in `Env`; everything the Python
code computes is translated as executable Lean definitions.  Python `float`
values are modelled as `ℚ` (no claim depends on floating-point rounding),
Python `None` as `Option.none`, Python `set` as `Finset String`, and a Python
exception that escapes a function as an `Except` error value or, at the
orchestrator boundary, as the `raised` flag of a cycle result.
-/

namespace Worker

/-- Notification trigger hour of the morning slot (`MORNING_SEND_HOUR = 9`). -/
def MORNING_SEND_HOUR : Nat := 9

/-- Notification trigger hour of the evening slot (`EVENING_SEND_HOUR = 20`). -/
def EVENING_SEND_HOUR : Nat := 20

/-- Forecast target hour fetched by the morning notification (today 16:00). -/
def AFTERNOON_TARGET_HOUR : Nat := 16

/-- Forecast target hour fetched by the evening notification (tomorrow 8:00). -/
def MORNING_TARGET_HOUR : Nat := 8

/-- Poll interval of the loop in seconds (`CHECK_INTERVAL_SECONDS = 300`). -/
def CHECK_INTERVAL_SECONDS : Nat := 300

/-- Location constant of the worker. -/
def LOCATION : String := "Pirkkala"

/-- Environment-variable configuration read at module load
(each value is `none` when the variable is unset). -/
structure Config where
  GEMINI_API_KEY : Option String
  TWILIO_ACCOUNT_SID : Option String
  TWILIO_AUTH_TOKEN : Option String
  TWILIO_FROM_NUMBER : Option String
  MY_PHONE_NUMBER : Option String
deriving DecidableEq, Repr

/-- Python truthiness of an optional string: `None` and `""` are falsy. -/
def truthyStr : Option String → Bool
  | none => false
  | some s => !(s = "")

/-- The `required_vars` list of `validate_env_vars` (name, value). -/
def requiredVars (c : Config) : List (String × Option String) :=
  [("GEMINI_API_KEY", c.GEMINI_API_KEY),
   ("TWILIO_ACCOUNT_SID", c.TWILIO_ACCOUNT_SID),
   ("TWILIO_AUTH_TOKEN", c.TWILIO_AUTH_TOKEN),
   ("TWILIO_FROM_NUMBER", c.TWILIO_FROM_NUMBER),
   ("MY_PHONE_NUMBER", c.MY_PHONE_NUMBER)]

/-- The `missing` list computed by `validate_env_vars`:
names whose value is falsy (unset or empty). -/
def missingVars (c : Config) : List String :=
  ((requiredVars c).filter (fun p => !truthyStr p.2)).map (fun p => p.1)

/-- Translation of `validate_env_vars`: true iff no required variable is
missing (worker.py lines 50-65). -/
def validate_env_vars (c : Config) : Bool :=
  (missingVars c).isEmpty

/-- Python `s.startswith(pre)`: character-level prefix test. -/
def pyStartswith (s pre : String) : Bool :=
  pre.data.isPrefixOf s.data

/-- Python `s.strip()`: drop leading and trailing whitespace. -/
def pyStrip (s : String) : String :=
  ⟨((s.data.dropWhile Char.isWhitespace).reverse.dropWhile Char.isWhitespace).reverse⟩

/-- Digits-to-number helper for `parseFloat`; `none` on an empty list or a
non-digit character. -/
def digitsToNat (cs : List Char) : Option Nat :=
  if cs.isEmpty then none
  else cs.foldl (fun acc c =>
    acc.bind (fun n => if c.isDigit then some (10 * n + (c.toNat - 48)) else none))
    (some 0)

/-- Model of Python `float(text)` restricted to plain decimal literals
(optional sign, integer part, optional fractional part); `none` models the
`ValueError` that worker.py lines 128-131 catch.  Exotic inputs Python would
also accept (exponents, `inf`, whitespace) are modelled as unparseable; no
claim depends on them. -/
def parseFloat (s : String) : Option ℚ :=
  let cs := s.data
  let signBody : Bool × List Char :=
    match cs with
    | '-' :: rest => (true, rest)
    | '+' :: rest => (false, rest)
    | _ => (false, cs)
  let neg := signBody.1
  let body := signBody.2
  let intPart := body.takeWhile (fun c => !(c = '.'))
  let rest := body.dropWhile (fun c => !(c = '.'))
  let q : Option ℚ :=
    match rest with
    | [] => (digitsToNat intPart).map (fun n => (n : ℚ))
    | _ :: frac =>
      if frac.any (fun c => c = '.') then none
      else if intPart.isEmpty ∧ frac.isEmpty then none
      else
        let ip := if intPart.isEmpty then some 0 else digitsToNat intPart
        let fp := if frac.isEmpty then some 0 else digitsToNat frac
        ip.bind (fun i => fp.map (fun f =>
          (i : ℚ) + (f : ℚ) / ((10 : ℚ) ^ frac.length)))
  q.map (fun v => if neg then -v else v)

/-- An XML element as seen through `ElementTree`: its `.text`
(`none` when the element has no text). -/
structure XmlElem where
  text : Option String
deriving DecidableEq, Repr

/-- One `BsWfs:BsWfsElement` member of the FMI response: the
`ParameterName` and `ParameterValue` child elements (`none` when the child
is absent, i.e. `member.find(...)` returned `None`). -/
structure XmlMember where
  param_name : Option XmlElem
  param_value : Option XmlElem
deriving DecidableEq, Repr

/-- Value extraction of worker.py line 129:
`float(param_value.text) if param_value.text and param_value.text != "NaN"
else None`, with `ValueError` mapped to `None`. -/
def memberValue (v : XmlElem) : Option ℚ :=
  match v.text with
  | none => none
  | some t => if t = "" ∨ t = "NaN" then none else parseFloat t

/-- The structured weather record built by `fetch_weather_forecast`
(worker.py lines 111-119); numeric fields are `none` when absent or
unparseable. -/
structure Weather where
  temperature : Option ℚ
  wind_speed : Option ℚ
  wind_direction : Option ℚ
  precipitation : Option ℚ
  cloud_cover : Option ℚ
  time : String
  location : String
deriving DecidableEq, Repr

/-- Initial `weather_data` dict with all numeric fields `None`. -/
def initWeather (timeStr : String) : Weather :=
  ⟨none, none, none, none, none, timeStr, LOCATION⟩

/-- One iteration of the extraction loop (worker.py lines 122-142): if both
child elements are present, parse the value and assign it to the field named
by the parameter name; otherwise skip the member. -/
def updateWeather (w : Weather) (m : XmlMember) : Weather :=
  match m.param_name, m.param_value with
  | some ne, some ve =>
    match ne.text with
    | some "Temperature" => { w with temperature := memberValue ve }
    | some "WindSpeedMS" => { w with wind_speed := memberValue ve }
    | some "WindDirection" => { w with wind_direction := memberValue ve }
    | some "Precipitation1h" => { w with precipitation := memberValue ve }
    | some "TotalCloudCover" => { w with cloud_cover := memberValue ve }
    | _ => w
  | _, _ => w

/-- Success path of `fetch_weather_forecast` (worker.py lines 111-145):
fold the extraction loop over the parsed members.  Request/parse failures
(lines 147-155 return `None`) are modelled one level up by
`Env.fetchResponse = none`. -/
def fetch_weather_forecast (timeStr : String) (members : List XmlMember) : Weather :=
  members.foldl updateWeather (initWeather timeStr)

/-- The `directions` table of `get_wind_direction_text`. -/
def windDirections : List (ℚ × String) :=
  [(0, "pohjoisesta"), (45, "koillisesta"), (90, "idasta"),
   (135, "kaakosta"), (180, "etelasta"), (225, "lounaasta"),
   (270, "lannesta"), (315, "luoteesta"), (360, "pohjoisesta")]

/-- The loop of `get_wind_direction_text` over consecutive direction pairs
(worker.py lines 169-176); falls through to `"pohjoisesta"`. -/
def windDirFind (d : ℚ) : List ((ℚ × String) × (ℚ × String)) → String
  | [] => "pohjoisesta"
  | (cur, nxt) :: rest =>
    if cur.1 ≤ d ∧ d < nxt.1 then
      if d - cur.1 < nxt.1 - d then cur.2 else nxt.2
    else windDirFind d rest

/-- Translation of `get_wind_direction_text` (worker.py lines 158-176). -/
def get_wind_direction_text : Option ℚ → String
  | none => "tuntematon"
  | some degrees =>
    windDirFind degrees ((windDirections.take 8).zip windDirections.tail)

/-- A Python exception escaping a function in the modelled fragment; the only
uncaught exception the worker code can raise during a cycle is the
`TypeError` of an f-string format spec applied to `None`. -/
inductive PyExn where
  | typeError
deriving DecidableEq, Repr

/-- Rendering of the f-string format spec `:.0f` (round to integer). -/
def fmt0f (q : ℚ) : String := toString (round q)

/-- Rendering of the f-string format spec `:.1f` (one decimal place). -/
def fmt1f (q : ℚ) : String :=
  let n : ℤ := round (q * 10)
  let sign := if n < 0 then "-" else ""
  let a := n.natAbs
  sign ++ toString (a / 10) ++ "." ++ toString (a % 10)

/-- Translation of `format_weather_sms` (worker.py lines 227-264).  The
f-string interpolations `{temp:.0f}` and `{wind:.0f}` raise `TypeError` when
the field is `None`, so the function errors unless both `temperature` and
`wind_speed` are present; `precipitation` is defaulted with `or 0` and
`wind_direction` is handled by `get_wind_direction_text`, so neither can
raise. -/
def format_weather_sms (weather : Weather) (recommendation : String)
    (whenW : String) (hour : Nat) : Except PyExn String :=
  match weather.temperature, weather.wind_speed with
  | some temp, some wind =>
    let wind_dir := get_wind_direction_text weather.wind_direction
    let precip : ℚ := match weather.precipitation with
      | none => 0
      | some p => p
    let precip_text :=
      if precip = 0 then "Ei sadetta"
      else if precip < 1/2 then "Heikkoa sadetta"
      else if precip < 2 then "Sadetta"
      else "Kovaa sadetta"
    let context := if hour = 8 then "Toihin" else "Toista"
    Except.ok
      (context ++ " - Pirkkala " ++ whenW ++ " klo " ++ toString hour ++ ":\n"
        ++ fmt0f temp ++ "C | " ++ fmt0f wind ++ " m/s " ++ wind_dir ++ "\n"
        ++ precip_text ++ "\n\n" ++ recommendation)
  | _, _ => Except.error PyExn.typeError

/-- Translation of `generate_clothing_recommendation`
(worker.py lines 179-209).  The body runs inside `try/except`: the
`weather_desc` f-string raises before the Gemini call when `temperature` or
`wind_speed` is `None` (caught, returning `None` with no API call); otherwise
the Gemini call is made, its outcome supplied by the oracle `gem` (`none`
models an exception from `generate_content`/`response.text`, also caught).
Returns the recommendation (stripped) and the number of Gemini invocations. -/
def generate_clothing_recommendation (gem : Option String) (weather : Weather) :
    Option String × Nat :=
  match weather.temperature, weather.wind_speed with
  | some _, some _ =>
    (match gem with
     | some t => (some (pyStrip t), 1)
     | none => (none, 1))
  | _, _ => (none, 0)

/-- Static description of one notification branch of the loop: slot name
(ledger-key suffix), the Finnish word used in the message, and the
`days_ahead`/`target_hour` arguments of its weather fetch. -/
structure SlotCfg where
  name : String
  whenWord : String
  daysAhead : Nat
  targetHour : Nat
deriving DecidableEq, Repr

/-- The morning branch (worker.py lines 300-319): triggers at 9, fetches
today's 16:00 weather. -/
def morningSlot : SlotCfg := ⟨"morning", "tanaan", 0, AFTERNOON_TARGET_HOUR⟩

/-- The evening branch (worker.py lines 322-341): triggers at 20, fetches
tomorrow's 8:00 weather. -/
def eveningSlot : SlotCfg := ⟨"evening", "huomenna", 1, MORNING_TARGET_HOUR⟩

/-- The oracle inputs of one poll cycle: the current local time (date string
and hour), the FMI response for the fetch this cycle would perform (`none`
models a request/parse failure, i.e. `fetch_weather_forecast` returning
`None`), the Gemini outcome, and whether the Twilio send succeeds. -/
structure Env where
  date : String
  hour : Nat
  fetchResponse : Option (List XmlMember)
  geminiResult : Option String
  smsSuccess : Bool
deriving DecidableEq, Repr

/-- The weather record the cycle's fetch produces for a slot:
`fetch_weather_forecast(days_ahead, target_hour)` applied to the oracle
response (`none` on fetch failure). -/
def cycleWeather (cfg : SlotCfg) (env : Env) : Option Weather :=
  env.fetchResponse.map
    (fetch_weather_forecast (env.date ++ " " ++ toString cfg.targetHour ++ ":00"))

/-- Observable outcome of one notification branch: the ledger afterwards, the
number of `send_sms` invocations, the number of `sent_notifications.add`
invocations, the number of Gemini invocations, whether the fallback message
path ran, and whether an exception escaped the branch (to be caught at the
loop boundary). -/
structure Outcome where
  ledger : Finset String
  sends : Nat
  marks : Nat
  geminiCalls : Nat
  fallbackUsed : Bool
  raised : Bool
deriving DecidableEq

/-- Translation of one notification branch body (worker.py lines 300-319 for
the morning slot, 322-341 for the evening slot; the two are identical modulo
the slot parameters).  `send_sms` itself catches all exceptions and returns a
Bool, so a failed delivery does not raise; the only raise point is
`format_weather_sms`.  On the recommendation path the slot-key is added only
when `send_sms` returns true (line 311-312 / 333-334); on the fallback path
it is added unconditionally after the send (lines 315-317 / 337-339). -/
def dispatchSlot (cfg : SlotCfg) (env : Env) (ledger : Finset String) : Outcome :=
  let key := env.date ++ "-" ++ cfg.name
  match cycleWeather cfg env with
  | some w =>
    if w.temperature.isSome then
      let recCalls := generate_clothing_recommendation env.geminiResult w
      let recommendation := recCalls.1
      let gcalls := recCalls.2
      let fallback : Outcome :=
        match format_weather_sms w "Pukeudu saan mukaan!" cfg.whenWord cfg.targetHour with
        | Except.ok _ => ⟨insert key ledger, 1, 1, gcalls, true, false⟩
        | Except.error _ => ⟨ledger, 0, 0, gcalls, true, true⟩
      match recommendation with
      | some r =>
        if r = "" then fallback
        else
          match format_weather_sms w r cfg.whenWord cfg.targetHour with
          | Except.ok _ =>
            if env.smsSuccess then ⟨insert key ledger, 1, 1, gcalls, false, false⟩
            else ⟨ledger, 1, 0, gcalls, false, false⟩
          | Except.error _ => ⟨ledger, 0, 0, gcalls, false, true⟩
      | none => fallback
    else ⟨ledger, 0, 0, 0, false, false⟩
  | none => ⟨ledger, 0, 0, 0, false, false⟩

/-- Observable outcome of one whole iteration of the `while True` loop. -/
structure CycleResult where
  ledger : Finset String
  fired : Option String
  sends : Nat
  marks : Nat
  geminiCalls : Nat
  fetches : Nat
  raised : Bool
deriving DecidableEq

/-- Translation of one iteration of the main loop (worker.py lines 288-356):
compute today's slot-keys; run the morning branch when
`current_hour == MORNING_SEND_HOUR and morning_key not in sent_notifications`,
else the evening branch under the analogous guard, else nothing; then prune
the ledger to keys starting with today's date (lines 349-350).  The prune
sits at the end of the `try` block, so a branch that raises skips it; the
`except` at line 352 absorbs the exception (`raised` flag) and the loop
always proceeds to the sleep. -/
def runCycle (env : Env) (ledger : Finset String) : CycleResult :=
  let today := env.date
  let morning_key := today ++ "-morning"
  let evening_key := today ++ "-evening"
  let step : Outcome × Option String × Nat :=
    if env.hour = MORNING_SEND_HOUR ∧ morning_key ∉ ledger then
      (dispatchSlot morningSlot env ledger, some "morning", 1)
    else if env.hour = EVENING_SEND_HOUR ∧ evening_key ∉ ledger then
      (dispatchSlot eveningSlot env ledger, some "evening", 1)
    else (⟨ledger, 0, 0, 0, false, false⟩, none, 0)
  let o := step.1
  ⟨if o.raised then o.ledger else o.ledger.filter (fun k => pyStartswith k today),
    step.2.1, o.sends, o.marks, o.geminiCalls, step.2.2, o.raised⟩

/-- Iterated cycles: the loop run for the given sequence of wakeups, threading
the ledger; returns the final ledger and the per-cycle results. -/
def runCycles (envs : List Env) (ledger : Finset String) :
    Finset String × List CycleResult :=
  match envs with
  | [] => (ledger, [])
  | e :: rest =>
    let r := runCycle e ledger
    let rec2 := runCycles rest r.ledger
    (rec2.1, r :: rec2.2)

/-- Observable outcome of `main` (worker.py lines 267-356) run for a given
sequence of wakeups: whether the poll loop was entered, whether the Gemini
and Twilio clients were initialized, and aggregate counts. -/
structure MainResult where
  startedLoop : Bool
  clientsInitialized : Bool
  cyclesRun : Nat
  totalSends : Nat
  totalFetches : Nat
  finalLedger : Finset String
deriving DecidableEq

/-- Translation of `main`: if `validate_env_vars` fails, return immediately
(no clients, no loop, worker.py lines 271-273); otherwise initialize the
clients, start with an empty `sent_notifications` set and run the loop. -/
def runMain (c : Config) (envs : List Env) : MainResult :=
  if validate_env_vars c then
    let res := runCycles envs ∅
    ⟨true, true, res.2.length, ((res.2.map (fun r => r.sends)).sum),
      ((res.2.map (fun r => r.fetches)).sum), res.1⟩
  else
    ⟨false, false, 0, 0, 0, ∅⟩

/-- Modelled from the spec: the Sequence Watermark Tracker of §4.1.  The
sequence-watermark worker script (the second of the two near-duplicate
workers the spec abstracts) is not under `src/`; this definition follows the
spec's words: an item is new iff the watermark is set and the item's id
exceeds it; after a non-empty batch the watermark becomes the last item's id
on first invocation, and the max of itself and the last id otherwise; an
empty batch leaves it unchanged. -/
def classify {α : Type} [LinearOrder α] (wm : Option α) (items : List α) :
    List (α × Bool) × Option α :=
  (items.map (fun i =>
      (i, match wm with
          | none => false
          | some w => decide (w < i))),
   match items.getLast? with
   | none => wm
   | some last =>
     some (match wm with
           | none => last
           | some w => max w last))

/-- Helper: a list is a `isPrefixOf` of itself followed by anything. -/
theorem isPrefixOf_append_self (l1 l2 : List Char) :
    l1.isPrefixOf (l1 ++ l2) = true := by
  induction l1 with
  | nil => simp [List.isPrefixOf]
  | cons a t ih => simp [List.isPrefixOf, ih]

/-- Helper: a slot-key built from today's date passes the prune filter. -/
theorem pyStartswith_append (d s : String) : pyStartswith (d ++ s) d = true := by
  simp [pyStartswith, String.data_append, isPrefixOf_append_self]

/-- Helper: the loop yields one result per wakeup. -/
theorem runCycles_length (envs : List Env) (L : Finset String) :
    (runCycles envs L).2.length = envs.length := by
  induction envs generalizing L with
  | nil => rfl
  | cons e rest ih => simp [runCycles, ih]

/-- Helper: equation of the cycle when the morning branch fires. -/
theorem runCycle_eq_morning (env : Env) (L : Finset String)
    (h1 : env.hour = MORNING_SEND_HOUR) (h2 : (env.date ++ "-morning") ∉ L) :
    runCycle env L =
      ⟨if (dispatchSlot morningSlot env L).raised then (dispatchSlot morningSlot env L).ledger
        else (dispatchSlot morningSlot env L).ledger.filter (fun k => pyStartswith k env.date),
       some "morning", (dispatchSlot morningSlot env L).sends,
       (dispatchSlot morningSlot env L).marks, (dispatchSlot morningSlot env L).geminiCalls,
       1, (dispatchSlot morningSlot env L).raised⟩ := by
  simp [runCycle, h1, h2]

/-- Helper: equation of the cycle when the evening branch fires. -/
theorem runCycle_eq_evening (env : Env) (L : Finset String)
    (h1 : env.hour = EVENING_SEND_HOUR) (h2 : (env.date ++ "-evening") ∉ L) :
    runCycle env L =
      ⟨if (dispatchSlot eveningSlot env L).raised then (dispatchSlot eveningSlot env L).ledger
        else (dispatchSlot eveningSlot env L).ledger.filter (fun k => pyStartswith k env.date),
       some "evening", (dispatchSlot eveningSlot env L).sends,
       (dispatchSlot eveningSlot env L).marks, (dispatchSlot eveningSlot env L).geminiCalls,
       1, (dispatchSlot eveningSlot env L).raised⟩ := by
  simp [runCycle, h1, h2, MORNING_SEND_HOUR, EVENING_SEND_HOUR]

/-- Helper: equation of the cycle when neither branch fires. -/
theorem runCycle_eq_idle (env : Env) (L : Finset String)
    (h1 : ¬(env.hour = MORNING_SEND_HOUR ∧ (env.date ++ "-morning") ∉ L))
    (h2 : ¬(env.hour = EVENING_SEND_HOUR ∧ (env.date ++ "-evening") ∉ L)) :
    runCycle env L =
      ⟨L.filter (fun k => pyStartswith k env.date), none, 0, 0, 0, 0, false⟩ := by
  simp [runCycle, h1, h2]

/-- Helper: every element of a `≤`-sorted list is bounded by its last element. -/
theorem sorted_le_getLast {l : List ℕ} {m : ℕ} (hs : List.Sorted (· ≤ ·) l)
    (hm : l.getLast? = some m) : ∀ x ∈ l, x ≤ m := by
  induction l with
  | nil => simp at hm
  | cons a t ih =>
    rcases List.sorted_cons.mp hs with ⟨ha, hts⟩
    intro x hx
    cases t with
    | nil =>
      simp [List.getLast?_singleton] at hm
      simp at hx
      omega
    | cons b t2 =>
      rw [List.getLast?_cons_cons] at hm
      rcases List.mem_cons.mp hx with rfl | hxt
      · have hmem : m ∈ b :: t2 := by
          rcases List.getLast?_eq_some_iff.mp hm with ⟨l2, hl⟩
          rw [hl]; simp
        exact ha m hmem
      · exact ih hts hm x hxt

/-- Example FMI response members: temperature 5.0 and wind speed 3.0 present. -/
def membersFull : List XmlMember :=
  [⟨some ⟨some "Temperature"⟩, some ⟨some "5.0"⟩⟩,
   ⟨some ⟨some "WindSpeedMS"⟩, some ⟨some "3.0"⟩⟩]

/-- Example FMI response members: temperature present, wind speed reported as
`"NaN"` and hence unparseable (field becomes `None`). -/
def membersWindNaN : List XmlMember :=
  [⟨some ⟨some "Temperature"⟩, some ⟨some "5.0"⟩⟩,
   ⟨some ⟨some "WindSpeedMS"⟩, some ⟨some "NaN"⟩⟩]

end Worker

open Worker

/-- C5: a slot fires (its branch body is entered) in a cycle iff the current
hour equals the slot's trigger hour and the slot-key `{date}-{name}` is
absent from the ledger; this holds for the morning slot (hour 9) and, through
the `elif` at worker.py line 322, for the evening slot (hour 20). -/
theorem C5_eligibility (env : Env) (L : Finset String) :
    ((runCycle env L).fired = some "morning"
        ↔ env.hour = MORNING_SEND_HOUR ∧ (env.date ++ "-morning") ∉ L)
    ∧ ((runCycle env L).fired = some "evening"
        ↔ env.hour = EVENING_SEND_HOUR ∧ (env.date ++ "-evening") ∉ L) := by
  by_cases h1 : env.hour = MORNING_SEND_HOUR ∧ (env.date ++ "-morning") ∉ L
  · rw [runCycle_eq_morning env L h1.1 h1.2]
    have h20 : ¬(env.hour = EVENING_SEND_HOUR) := by
      rw [h1.1]; simp [MORNING_SEND_HOUR, EVENING_SEND_HOUR]
    constructor
    · simpa using h1
    · constructor
      · intro hcontra
        simp at hcontra
      · intro hc
        exact absurd hc.1 h20
  · by_cases h2 : env.hour = EVENING_SEND_HOUR ∧ (env.date ++ "-evening") ∉ L
    · rw [runCycle_eq_evening env L h2.1 h2.2]
      constructor
      · constructor
        · intro hcontra
          simp at hcontra
        · intro hc
          exact absurd hc h1
      · simpa using h2
    · rw [runCycle_eq_idle env L h1 h2]
      constructor
      · constructor
        · intro hcontra
          simp at hcontra
        · intro hc
          exact absurd hc h1
      · constructor
        · intro hcontra
          simp at hcontra
        · intro hc
          exact absurd hc h2

/-- C6: no processing error terminates the loop or prevents a subsequent
cycle: every collaborator failure is a value in the model, and the one
exception the cycle body can raise (the formatting `TypeError`) is absorbed
at the orchestrator boundary into the `raised` flag of that cycle's result,
so the loop performed for any sequence of wakeups completes every cycle and
produces exactly one result per wakeup. -/
theorem C6_errors_contained (envs : List Env) (L : Finset String) :
    (runCycles envs L).2.length = envs.length :=
  runCycles_length envs L

/-- C1: counterexample — a cycle in which the morning slot is eligible, a
delivery attempt is made (`sends = 1`), the delivery fails, and the slot-key
is NOT added to the ledger: on the recommendation path worker.py line 311-312
adds the key only when `send_sms` returns true, so a delivery failure leaves
the ledger without the entry. -/
theorem C1_counterexample :
    ((runCycle ⟨"2025-03-10", 9, some membersFull, some "Takki paalle", false⟩ ∅).sends = 1)
    ∧ ("2025-03-10-morning" ∉
        (runCycle ⟨"2025-03-10", 9, some membersFull, some "Takki paalle", false⟩ ∅).ledger) := by
  decide

/-- C1 (amended): once a delivery attempt has been made for an eligible slot,
the slot-key is added to the ledger iff the delivery succeeded or the
fallback message path was taken: only the fallback path (worker.py lines
315-317 / 337-339) marks unconditionally; on the recommendation path a
delivery failure leaves the ledger without the entry. -/
theorem C1_mark_after_send (cfg : SlotCfg) (env : Env) (L : Finset String)
    (hk : (env.date ++ "-" ++ cfg.name) ∉ L)
    (hs : (dispatchSlot cfg env L).sends = 1) :
    ((env.date ++ "-" ++ cfg.name) ∈ (dispatchSlot cfg env L).ledger
      ↔ ((dispatchSlot cfg env L).fallbackUsed = true ∨ env.smsSuccess = true)) := by
  cases hw : cycleWeather cfg env with
  | none => simp [dispatchSlot, hw] at hs
  | some w =>
    by_cases ht : w.temperature.isSome
    · cases hrec : (generate_clothing_recommendation env.geminiResult w).1 with
      | none =>
        cases hF : format_weather_sms w "Pukeudu saan mukaan!" cfg.whenWord cfg.targetHour with
        | ok msg => simp [dispatchSlot, hw, ht, hrec, hF]
        | error e => simp [dispatchSlot, hw, ht, hrec, hF] at hs
      | some r =>
        by_cases hr : r = ""
        · cases hF : format_weather_sms w "Pukeudu saan mukaan!" cfg.whenWord cfg.targetHour with
          | ok msg => simp [dispatchSlot, hw, ht, hrec, hr, hF]
          | error e => simp [dispatchSlot, hw, ht, hrec, hr, hF] at hs
        · cases hF : format_weather_sms w r cfg.whenWord cfg.targetHour with
          | ok msg =>
            by_cases hsms : env.smsSuccess
            · simp [dispatchSlot, hw, ht, hrec, hr, hF, hsms]
            · simp [dispatchSlot, hw, ht, hrec, hr, hF, hsms, hk]
          | error e => simp [dispatchSlot, hw, ht, hrec, hr, hF] at hs
    · simp [dispatchSlot, hw, ht] at hs

/-- C2: counterexample — two consecutive cycles at hour 9 on the same date
make TWO delivery calls when the first cycle's delivery fails on the
recommendation path: the failed first send does not record the slot-key
(worker.py line 311-312), so the second cycle fires again. -/
theorem C2_counterexample :
    (runCycle ⟨"2025-03-10", 9, some membersFull, some "Takki paalle", false⟩ ∅).sends
      + (runCycle ⟨"2025-03-10", 9, some membersFull, some "Takki paalle", true⟩
          (runCycle ⟨"2025-03-10", 9, some membersFull, some "Takki paalle", false⟩ ∅).ledger).sends
      = 2 := by
  decide

/-- C2 (amended): if the first of two consecutive cycles at the morning
trigger hour on the same date makes one delivery call and records the
slot-key in the ledger (delivery succeeded, or the fallback path marked
unconditionally), then the second cycle makes no delivery call and no
insertion: exactly one delivery and one recorded dispatch across the two
cycles, and the key is still in the ledger afterwards.  (Without that
proviso the claim fails: a failed delivery on the recommendation path leaves
the key unrecorded and the second cycle delivers again.) -/
theorem C2_second_cycle_suppressed (env1 env2 : Env) (L : Finset String) (d : String)
    (_hd1 : env1.date = d) (_hh1 : env1.hour = MORNING_SEND_HOUR)
    (hd2 : env2.date = d) (hh2 : env2.hour = MORNING_SEND_HOUR)
    (h1 : (runCycle env1 L).sends = 1)
    (hk : (d ++ "-morning") ∈ (runCycle env1 L).ledger) :
    (runCycle env2 (runCycle env1 L).ledger).sends = 0
    ∧ (runCycle env2 (runCycle env1 L).ledger).marks = 0
    ∧ (runCycle env1 L).sends + (runCycle env2 (runCycle env1 L).ledger).sends = 1
    ∧ (d ++ "-morning") ∈ (runCycle env2 (runCycle env1 L).ledger).ledger := by
  have hmk : ¬(env2.hour = MORNING_SEND_HOUR
      ∧ (env2.date ++ "-morning") ∉ (runCycle env1 L).ledger) := by
    intro hc
    rw [hd2] at hc
    exact hc.2 hk
  have hek : ¬(env2.hour = EVENING_SEND_HOUR
      ∧ (env2.date ++ "-evening") ∉ (runCycle env1 L).ledger) := by
    intro hc
    rw [hh2] at hc
    simp [MORNING_SEND_HOUR, EVENING_SEND_HOUR] at hc
  rw [runCycle_eq_idle env2 (runCycle env1 L).ledger hmk hek]
  refine ⟨rfl, rfl, by simp [h1], ?_⟩
  rw [hd2]
  exact Finset.mem_filter.mpr ⟨hk, pyStartswith_append d "-morning"⟩

/-- C2 witness: first cycle delivers successfully and records the key; the
second cycle at the same hour and date is suppressed. -/
theorem C2_second_cycle_suppressed_witness :
    ((runCycle ⟨"2025-03-10", 9, some membersFull, some "Takki paalle", true⟩ ∅).sends = 1)
    ∧ (("2025-03-10" ++ "-morning") ∈
        (runCycle ⟨"2025-03-10", 9, some membersFull, some "Takki paalle", true⟩ ∅).ledger)
    ∧ ((runCycle ⟨"2025-03-10", 9, some membersFull, none, true⟩
          (runCycle ⟨"2025-03-10", 9, some membersFull, some "Takki paalle", true⟩ ∅).ledger).sends = 0
        ∧ (runCycle ⟨"2025-03-10", 9, some membersFull, none, true⟩
            (runCycle ⟨"2025-03-10", 9, some membersFull, some "Takki paalle", true⟩ ∅).ledger).marks = 0
        ∧ (runCycle ⟨"2025-03-10", 9, some membersFull, some "Takki paalle", true⟩ ∅).sends
            + (runCycle ⟨"2025-03-10", 9, some membersFull, none, true⟩
                (runCycle ⟨"2025-03-10", 9, some membersFull, some "Takki paalle", true⟩ ∅).ledger).sends = 1
        ∧ ("2025-03-10" ++ "-morning") ∈
            (runCycle ⟨"2025-03-10", 9, some membersFull, none, true⟩
              (runCycle ⟨"2025-03-10", 9, some membersFull, some "Takki paalle", true⟩ ∅).ledger).ledger) :=
  ⟨by decide, by decide,
    C2_second_cycle_suppressed
      ⟨"2025-03-10", 9, some membersFull, some "Takki paalle", true⟩
      ⟨"2025-03-10", 9, some membersFull, none, true⟩ ∅ "2025-03-10"
      rfl rfl rfl rfl (by decide) (by decide)⟩

/-- C3: counterexample — the prune sits at the END of the cycle's try block
(worker.py lines 349-350), not at its start, and a cycle whose processing
raises skips it: with a stale entry seeded and a partial weather record
(wind speed unparseable) at the trigger hour, the fallback formatting raises
`TypeError`, the prune never runs, and the stale key from the previous date
survives the cycle whose current date is `"2025-01-02"`. -/
theorem C3_counterexample :
    ("2025-01-01-morning" ∈
      (runCycle ⟨"2025-01-02", 9, some membersWindNaN, some "x", true⟩
        {"2025-01-01-morning"}).ledger)
    ∧ pyStartswith "2025-01-01-morning" "2025-01-02" = false := by
  decide

/-- C3 (amended): the prune runs at the end of the cycle's try block, so in
every cycle that completes without a caught processing error, all entries
whose date component differs from the current date are removed: every key
remaining in the ledger starts with the cycle's date.  A cycle whose
processing raises skips the prune, and stale entries survive it. -/
theorem C3_prune_on_completion (env : Env) (L : Finset String)
    (h : (runCycle env L).raised = false) :
    ∀ k ∈ (runCycle env L).ledger, pyStartswith k env.date = true := by
  intro k hkmem
  simp only [runCycle] at h hkmem
  simp [h] at hkmem
  exact hkmem.2

/-- C3 witness: the day-rollover scenario of the spec — a ledger seeded with
the previous day's key is empty after a completed cycle dated
`"2025-01-02"`. -/
theorem C3_prune_on_completion_witness :
    ((runCycle ⟨"2025-01-02", 0, none, none, false⟩ {"2025-01-01-morning"}).raised = false)
    ∧ (∀ k ∈ (runCycle ⟨"2025-01-02", 0, none, none, false⟩ {"2025-01-01-morning"}).ledger,
        pyStartswith k "2025-01-02" = true)
    ∧ ((runCycle ⟨"2025-01-02", 0, none, none, false⟩ {"2025-01-01-morning"}).ledger = ∅) :=
  ⟨by decide,
    C3_prune_on_completion ⟨"2025-01-02", 0, none, none, false⟩ {"2025-01-01-morning"} (by decide),
    by decide⟩

/-- C4: counterexample — a response whose wind speed is unparseable (`"NaN"`)
still yields a structured record (temperature parsed, wind speed `None`), so
the fetch half of the claim holds; but the core's processing of that partial
record FAILS: the message formatting raises `TypeError` (f-string `:.0f`
applied to `None`), the cycle's processing errors out and no SMS is sent. -/
theorem C4_counterexample :
    ((fetch_weather_forecast "t" membersWindNaN).temperature.isSome = true)
    ∧ ((fetch_weather_forecast "t" membersWindNaN).wind_speed = none)
    ∧ ((format_weather_sms (fetch_weather_forecast "t" membersWindNaN)
          "Pukeudu saan mukaan!" "tanaan" 16).isOk = false)
    ∧ ((runCycle ⟨"2025-03-10", 9, some membersWindNaN, some "x", true⟩ ∅).raised = true)
    ∧ ((runCycle ⟨"2025-03-10", 9, some membersWindNaN, some "x", true⟩ ∅).sends = 0) := by
  decide

/-- C4 (amended): the fetch itself tolerates partial records — an absent or
unparseable parameter value becomes `None` in the structured record rather
than a fetch failure — and the recommendation step never raises on a partial
record (it calls Gemini exactly when temperature and wind speed are both
present, and otherwise fails over to `None`); but the message formatting
succeeds exactly when both `temperature` and `wind_speed` are present, so the
core's processing of a record missing `wind_speed` fails rather than treating
the field as unknown. -/
theorem C4_partial_record_tolerance (w : Weather) (msg whenW : String) (hr : Nat)
    (ve : XmlElem) (g : Option String) :
    ((format_weather_sms w msg whenW hr).isOk
        = (w.temperature.isSome && w.wind_speed.isSome))
    ∧ ((updateWeather w ⟨some ⟨some "Temperature"⟩, some ve⟩).temperature = memberValue ve)
    ∧ ((updateWeather w ⟨some ⟨some "WindSpeedMS"⟩, some ve⟩).wind_speed = memberValue ve)
    ∧ ((generate_clothing_recommendation g w).1
        = if w.temperature.isSome ∧ w.wind_speed.isSome then g.map pyStrip else none)
    ∧ ((generate_clothing_recommendation g w).2
        = if w.temperature.isSome ∧ w.wind_speed.isSome then 1 else 0) := by
  refine ⟨?_, rfl, rfl, ?_, ?_⟩
  · cases ht : w.temperature <;> cases hwd : w.wind_speed <;>
      simp [format_weather_sms, ht, hwd, Except.isOk, Except.toBool]
  · cases ht : w.temperature <;> cases hwd : w.wind_speed <;>
      cases g <;> simp [generate_clothing_recommendation, ht, hwd]
  · cases ht : w.temperature <;> cases hwd : w.wind_speed <;>
      cases g <;> simp [generate_clothing_recommendation, ht, hwd]

/-- C7: counterexample — an eligible slot whose transform returns no usable
output is SKIPPED when the weather record's wind speed is missing: the
fallback formatting raises before `send_sms` is reached, so no delivery is
attempted and no ledger entry is made. -/
theorem C7_counterexample :
    ((generate_clothing_recommendation (some "x")
        ((cycleWeather morningSlot ⟨"2025-03-10", 9, some membersWindNaN, some "x", true⟩).getD
          (initWeather ""))).1 = none)
    ∧ ((runCycle ⟨"2025-03-10", 9, some membersWindNaN, some "x", true⟩ ∅).fired = some "morning")
    ∧ ((runCycle ⟨"2025-03-10", 9, some membersWindNaN, some "x", true⟩ ∅).sends = 0)
    ∧ ("2025-03-10-morning" ∉
        (runCycle ⟨"2025-03-10", 9, some membersWindNaN, some "x", true⟩ ∅).ledger) := by
  decide

/-- C7 (amended): when the transform fails or returns unusable (empty) output
for a slot whose fetched record has both temperature and wind speed present,
the item is not skipped: the deterministic fallback message is built, one
delivery is attempted, and the slot-key is recorded regardless of the
delivery outcome.  (When wind speed is absent the fallback formatting raises
and the slot IS skipped without a delivery attempt.) -/
theorem C7_fallback_delivery (cfg : SlotCfg) (env : Env) (L : Finset String) (w : Weather)
    (hw : cycleWeather cfg env = some w)
    (ht : w.temperature.isSome = true)
    (hwind : w.wind_speed.isSome = true)
    (htr : (generate_clothing_recommendation env.geminiResult w).1 = none
         ∨ (generate_clothing_recommendation env.geminiResult w).1 = some "") :
    (dispatchSlot cfg env L).sends = 1
    ∧ (dispatchSlot cfg env L).fallbackUsed = true
    ∧ (env.date ++ "-" ++ cfg.name) ∈ (dispatchSlot cfg env L).ledger := by
  obtain ⟨tv, htv⟩ := Option.isSome_iff_exists.mp ht
  obtain ⟨wv, hwv⟩ := Option.isSome_iff_exists.mp hwind
  have hF : (format_weather_sms w "Pukeudu saan mukaan!" cfg.whenWord cfg.targetHour).isOk
      = true := by
    simp [format_weather_sms, htv, hwv, Except.isOk, Except.toBool]
  cases hFm : format_weather_sms w "Pukeudu saan mukaan!" cfg.whenWord cfg.targetHour with
  | error e => rw [hFm] at hF; simp [Except.isOk, Except.toBool] at hF
  | ok m =>
    rcases htr with htr | htr
    · simp [dispatchSlot, hw, ht, htr, hFm, Finset.mem_insert_self]
    · simp [dispatchSlot, hw, ht, htr, hFm, Finset.mem_insert_self]

/-- C7 witness: a full weather record with a failed Gemini call — the
fallback message is delivered and the slot marked. -/
theorem C7_fallback_delivery_witness :
    ((dispatchSlot morningSlot ⟨"2025-03-11", 9, some membersFull, none, true⟩ ∅).sends = 1)
    ∧ ((dispatchSlot morningSlot ⟨"2025-03-11", 9, some membersFull, none, true⟩ ∅).fallbackUsed = true)
    ∧ (("2025-03-11" ++ "-" ++ morningSlot.name) ∈
        (dispatchSlot morningSlot ⟨"2025-03-11", 9, some membersFull, none, true⟩ ∅).ledger) :=
  C7_fallback_delivery morningSlot ⟨"2025-03-11", 9, some membersFull, none, true⟩ ∅
    (fetch_weather_forecast ("2025-03-11" ++ " " ++ toString morningSlot.targetHour ++ ":00")
      membersFull)
    rfl (by decide) (by decide) (Or.inl (by decide))

/-- C10: counterexample — when the fetch fails for an eligible slot, no SMS
is sent, but the ledger is NOT left unchanged by the cycle: the end-of-cycle
prune still removes stale-date entries. -/
theorem C10_counterexample :
    ((runCycle ⟨"2025-01-02", 9, none, none, false⟩ {"2025-01-01-morning"}).sends = 0)
    ∧ ((runCycle ⟨"2025-01-02", 9, none, none, false⟩ {"2025-01-01-morning"}).ledger
        ≠ {"2025-01-01-morning"}) := by
  decide

/-- C10 (amended): the transform and delivery collaborators are invoked for a
slot only when the fetch produced a record with temperature present; when the
fetch returns no record or the temperature is missing, the dispatch step
makes no Gemini call, no SMS send and no ledger insertion, leaving the ledger
untouched (the cycle then only applies the end-of-cycle prune of stale-date
entries), so the slot is still eligible and fires again on a later poll in
the same trigger hour. -/
theorem C10_no_dispatch_without_temperature (cfg : SlotCfg) (env env2 : Env) (L : Finset String)
    (hw : cycleWeather cfg env = none
        ∨ ∃ w, cycleWeather cfg env = some w ∧ w.temperature = none) :
    ((dispatchSlot cfg env L).sends = 0 ∧ (dispatchSlot cfg env L).geminiCalls = 0
      ∧ (dispatchSlot cfg env L).marks = 0 ∧ (dispatchSlot cfg env L).raised = false
      ∧ (dispatchSlot cfg env L).ledger = L)
    ∧ (cfg = morningSlot → env.hour = MORNING_SEND_HOUR → (env.date ++ "-morning") ∉ L →
        (runCycle env L).sends = 0
        ∧ (runCycle env L).ledger = L.filter (fun k => pyStartswith k env.date)
        ∧ (env2.date = env.date → env2.hour = MORNING_SEND_HOUR →
            (runCycle env2 (runCycle env L).ledger).fired = some "morning")) := by
  have hbase : dispatchSlot cfg env L = ⟨L, 0, 0, 0, false, false⟩ := by
    rcases hw with hw | ⟨w, hw, htn⟩
    · simp [dispatchSlot, hw]
    · simp [dispatchSlot, hw, htn]
  refine ⟨by simp [hbase], ?_⟩
  intro hcfg hh hk
  subst hcfg
  rw [runCycle_eq_morning env L hh hk, hbase]
  refine ⟨rfl, by simp, ?_⟩
  intro hd2 hh2
  have hk2 : (env2.date ++ "-morning") ∉
      (Finset.filter (fun k => pyStartswith k env.date = true) L) := by
    rw [hd2]
    intro hmem
    exact hk (Finset.mem_filter.mp hmem).1
  have := runCycle_eq_morning env2
      (Finset.filter (fun k => pyStartswith k env.date = true) L) hh2 hk2
  simp [this]

/-- C10 witness: a failed fetch at the trigger hour — nothing is sent, the
ledger keeps no new key, and an immediately following poll in the same hour
fires the slot again. -/
theorem C10_no_dispatch_without_temperature_witness :
    ((dispatchSlot morningSlot ⟨"2025-01-02", 9, none, none, false⟩ ∅).sends = 0)
    ∧ ((runCycle ⟨"2025-01-02", 9, none, none, false⟩ ∅).ledger
        = (∅ : Finset String).filter (fun k => pyStartswith k "2025-01-02"))
    ∧ ((runCycle ⟨"2025-01-02", 9, none, none, false⟩
          (runCycle ⟨"2025-01-02", 9, none, none, false⟩ ∅).ledger).fired = some "morning") := by
  have h := C10_no_dispatch_without_temperature morningSlot
      ⟨"2025-01-02", 9, none, none, false⟩ ⟨"2025-01-02", 9, none, none, false⟩ ∅
      (Or.inl rfl)
  exact ⟨h.1.1, (h.2 rfl rfl (by decide)).2.1, (h.2 rfl rfl (by decide)).2.2 rfl rfl⟩

/-- C8: if any required configuration value is absent (or empty) at startup,
`main` returns before initializing the Gemini/Twilio clients or entering the
poll loop: no cycle runs, nothing is fetched or sent; and with a complete
configuration the process enters the loop and runs every cycle — missing
configuration is the only condition that stops the process. -/
theorem C8_config_gate (c : Config) (envs : List Env) :
    (validate_env_vars c = false →
      (runMain c envs).startedLoop = false ∧ (runMain c envs).clientsInitialized = false
      ∧ (runMain c envs).cyclesRun = 0 ∧ (runMain c envs).totalSends = 0
      ∧ (runMain c envs).totalFetches = 0)
    ∧ (validate_env_vars c = true →
      (runMain c envs).startedLoop = true ∧ (runMain c envs).clientsInitialized = true
      ∧ (runMain c envs).cyclesRun = envs.length) := by
  constructor
  · intro h
    simp [runMain, h]
  · intro h
    simp [runMain, h, runCycles_length]

/-- C8 witness: a configuration missing `GEMINI_API_KEY` runs no cycle; the
same configuration with the key present runs its one scheduled cycle. -/
theorem C8_config_gate_witness :
    ((runMain ⟨none, some "sid", some "tok", some "from", some "to"⟩
        [⟨"2025-03-10", 9, none, none, false⟩]).cyclesRun = 0
      ∧ (runMain ⟨none, some "sid", some "tok", some "from", some "to"⟩
          [⟨"2025-03-10", 9, none, none, false⟩]).totalSends = 0
      ∧ (runMain ⟨none, some "sid", some "tok", some "from", some "to"⟩
          [⟨"2025-03-10", 9, none, none, false⟩]).clientsInitialized = false)
    ∧ ((runMain ⟨some "key", some "sid", some "tok", some "from", some "to"⟩
          [⟨"2025-03-10", 9, none, none, false⟩]).cyclesRun = 1) :=
  ⟨⟨((C8_config_gate ⟨none, some "sid", some "tok", some "from", some "to"⟩
        [⟨"2025-03-10", 9, none, none, false⟩]).1 (by decide)).2.2.1,
    ((C8_config_gate ⟨none, some "sid", some "tok", some "from", some "to"⟩
        [⟨"2025-03-10", 9, none, none, false⟩]).1 (by decide)).2.2.2.1,
    ((C8_config_gate ⟨none, some "sid", some "tok", some "from", some "to"⟩
        [⟨"2025-03-10", 9, none, none, false⟩]).1 (by decide)).2.1⟩,
    ((C8_config_gate ⟨some "key", some "sid", some "tok", some "from", some "to"⟩
        [⟨"2025-03-10", 9, none, none, false⟩]).2 (by decide)).2.2⟩

/-- C9: first-ever batch baseline of the sequence-watermark tracker (modelled
from the spec, the watermark worker script being absent from src/): with the
watermark unset, no item of a non-empty ascending batch is classified as new,
and afterwards the watermark equals the maximum id of the batch. -/
theorem C9_first_batch_baseline (items : List ℕ) (hne : items ≠ [])
    (hs : List.Sorted (· ≤ ·) items) :
    (∀ p ∈ (classify (none : Option ℕ) items).1, p.2 = false)
    ∧ ∃ m, (classify (none : Option ℕ) items).2 = some m ∧ m ∈ items
        ∧ ∀ x ∈ items, x ≤ m := by
  constructor
  · intro p hp
    simp [classify] at hp
    obtain ⟨a, ha, hpa⟩ := hp
    rw [← hpa]
  · have hlast : items.getLast? = some (items.getLast hne) :=
      List.getLast?_eq_getLast items hne
    exact ⟨items.getLast hne, by simp [classify, hlast],
      List.getLast_mem hne, sorted_le_getLast hs hlast⟩

/-- C9 witness: the concrete first batch `[3, 5, 8]`. -/
theorem C9_first_batch_baseline_witness :
    (∀ p ∈ (classify (none : Option ℕ) [3, 5, 8]).1, p.2 = false)
    ∧ ∃ m, (classify (none : Option ℕ) [3, 5, 8]).2 = some m ∧ m ∈ [3, 5, 8]
        ∧ ∀ x ∈ [3, 5, 8], x ≤ m :=
  C9_first_batch_baseline [3, 5, 8] (by decide) (by decide)

/-- C1 witness: a concrete fallback-path dispatch (Gemini failed, delivery
failed) satisfying the hypotheses of the amended theorem. -/
theorem C1_mark_after_send_witness :
    (("2025-03-10" ++ "-" ++ morningSlot.name) ∉ (∅ : Finset String))
    ∧ ((dispatchSlot morningSlot ⟨"2025-03-10", 9, some membersFull, none, false⟩ ∅).sends = 1)
    ∧ ((("2025-03-10" ++ "-" ++ morningSlot.name) ∈
          (dispatchSlot morningSlot ⟨"2025-03-10", 9, some membersFull, none, false⟩ ∅).ledger)
        ↔ ((dispatchSlot morningSlot ⟨"2025-03-10", 9, some membersFull, none, false⟩ ∅).fallbackUsed = true
            ∨ (⟨"2025-03-10", 9, some membersFull, none, false⟩ : Env).smsSuccess = true)) :=
  ⟨by decide, by decide,
    C1_mark_after_send morningSlot ⟨"2025-03-10", 9, some membersFull, none, false⟩ ∅
      (by decide) (by decide)⟩
